import Mathlib

/-!
Verification development for the eatfit24-ai-proxy service.

The Python source (`app/food_gate.py`, `app/openrouter_client.py`,
`app/schemas.py`, `app/config.py`, `app/main.py`) is shallowly embedded
below.  Python floats are modelled as rational numbers (`ℚ`); Python dicts
produced by JSON repair are modelled as association lists of string keys
(Python dict keys are unique, lookups take the first occurrence).  Code that
can raise is modelled with `Option`/`Except` or explicit outcome types.
The third-party `json_repair.repair_json` call is external library code;
functions that consume its result are embedded from the point where the
repaired Python value is in hand, so they take a `JsonVal` argument.
-/

set_option autoImplicit false

namespace EatFit

/-- A Python value as produced by `json_repair.repair_json(_, return_objects=True)`:
`None`, booleans, numbers (modelled as `ℚ`), strings, lists and dicts. -/
inductive JsonVal where
  | jnull
  | jbool (b : Bool)
  | jnum (q : ℚ)
  | jstr (s : String)
  | jarr (xs : List JsonVal)
  | jobj (fields : List (String × JsonVal))

namespace JsonVal

/-- Python `dict.get(key, default)` over the association-list model of a dict. -/
def dictGet (fields : List (String × JsonVal)) (key : String) (dflt : JsonVal) : JsonVal :=
  match fields.lookup key with
  | some v => v
  | none => dflt

/-- Python `key in dict`. -/
def dictHasKey (fields : List (String × JsonVal)) (key : String) : Bool :=
  (fields.lookup key).isSome

/-- Removal of a key, as done by Python `dict.pop(key)` (the key is unique in a dict;
the model removes every binding of it). -/
def dictPop (fields : List (String × JsonVal)) (key : String) : List (String × JsonVal) :=
  fields.filter (fun kv => kv.1 ≠ key)

end JsonVal

/-- Python truthiness, `bool(x)`: `None` and empty containers are falsy,
zero is falsy, the empty string is falsy. -/
def pyBool : JsonVal → Bool
  | .jnull => false
  | .jbool b => b
  | .jnum q => q ≠ 0
  | .jstr s => s ≠ ""
  | .jarr xs => ¬ xs.isEmpty
  | .jobj fields => ¬ fields.isEmpty

/-- One decimal digit. -/
def digitVal (c : Char) : Option ℕ :=
  if c.isDigit then some (c.toNat - 48) else none

/-- Parse a non-empty run of decimal digits into its value and its length. -/
def parseDigits : List Char → Option (ℕ × ℕ)
  | [] => none
  | c :: cs =>
    match digitVal c with
    | none => none
    | some d =>
      match parseDigits cs with
      | none => if cs = [] then some (d, 1) else none
      | some (v, len) => some (d * 10 ^ len + v, len + 1)

/-- The decimal fragment of Python `float(str)`: optional sign, digits with an
optional fractional part (this is the shape occurring in repaired JSON values;
scientific notation, `inf`, `nan` and underscores do not arise there).
`none` models `float()` raising `ValueError`. -/
def pyFloatOfChars (cs : List Char) : Option ℚ :=
  match cs with
  | '-' :: rest => (pyFloatOfCharsUnsigned rest).map (fun q => -q)
  | '+' :: rest => pyFloatOfCharsUnsigned rest
  | _ => pyFloatOfCharsUnsigned cs
where
  pyFloatOfCharsUnsigned (cs : List Char) : Option ℚ :=
    match cs.span (fun c => c ≠ '.') with
    | (intPart, []) =>
      match parseDigits intPart with
      | some (v, _) => some (v : ℚ)
      | none => none
    | (intPart, _dot :: fracPart) =>
      match parseDigits intPart, parseDigits fracPart with
      | some (iv, _), some (fv, flen) => some ((iv : ℚ) + (fv : ℚ) / (10 ^ flen : ℚ))
      | _, _ => none

/-- Python `float(x)` on a repaired JSON value: numbers pass through, booleans
become `0.0`/`1.0`, strings are parsed, everything else raises
(`TypeError`/`ValueError`, modelled as `none`). -/
def pyFloat : JsonVal → Option ℚ
  | .jnum q => some q
  | .jbool b => some (if b then 1 else 0)
  | .jstr s => pyFloatOfChars s.toList
  | _ => none

/-- Python `str(x)` on a repaired JSON value.  Scalar renderings follow Python;
container renderings abbreviate Python's `repr` (no embedded claim inspects them). -/
def pyStr : JsonVal → String
  | .jnull => "None"
  | .jbool b => if b then "True" else "False"
  | .jnum q => toString q
  | .jstr s => s
  | .jarr _ => "[...]"
  | .jobj _ => "{...}"

/-- The repaired root is a dict (the `isinstance(data, dict)` test of
`parse_gate_response`). -/
def JsonVal.isObj : JsonVal → Bool
  | .jobj _ => true
  | _ => false

-- ==========================================================================
-- app/schemas.py: GateResult
-- ==========================================================================

/-- `GateResult` (app/schemas.py).  `is_food = none` means the gate response was
invalid/unparseable, distinct from `some false` ("upstream says not food"). -/
structure GateResult where
  is_food : Option Bool
  confidence : Option ℚ
  reason : String
  deriving DecidableEq

-- ==========================================================================
-- app/food_gate.py: parse_gate_response
-- ==========================================================================

/-- `parse_gate_response` (app/food_gate.py), embedded from the point where
`repair_json(response_text, return_objects=True)` has produced its value.
A non-dict root yields `is_food = none`.  For a dict root the source computes
`bool(data.get("is_food", False))`, then `float(data.get("confidence", 0.0))` —
which raises when the value is not numeric, landing in the `except` branch that
also yields `is_food = none` — then clamps the confidence to `[0, 1]`. -/
def parse_gate_response (data : JsonVal) : GateResult :=
  match data with
  | .jobj fields =>
    match pyFloat (JsonVal.dictGet fields "confidence" (.jnum 0)) with
    | none => ⟨none, none, "invalid_gate_response"⟩
    | some c =>
      let isFoodVal := pyBool (JsonVal.dictGet fields "is_food" (.jbool false))
      let confidence := max 0 (min 1 c)
      let reason := pyStr (JsonVal.dictGet fields "reason" (.jstr "unknown"))
      ⟨some isFoodVal, some confidence, reason⟩
  | _ => ⟨none, none, "invalid_gate_response"⟩

/-- The confidence-field coercion of `parse_gate_response` raises on this
repaired root: the root is a dict but `float(data.get("confidence", 0.0))`
fails (non-numeric value). -/
def gateConfidenceCoercionFails : JsonVal → Bool
  | .jobj fields => (pyFloat (JsonVal.dictGet fields "confidence" (.jnum 0))).isNone
  | _ => false

-- ==========================================================================
-- app/schemas.py: FoodItem, TotalNutrition and their alias serializers
-- ==========================================================================

/-- `FoodItem` (app/schemas.py). -/
structure FoodItem where
  name : String
  grams : ℚ
  kcal : ℚ
  protein : ℚ
  fat : ℚ
  carbohydrates : ℚ
  deriving DecidableEq

/-- `TotalNutrition` (app/schemas.py). -/
structure TotalNutrition where
  kcal : ℚ
  protein : ℚ
  fat : ℚ
  carbohydrates : ℚ
  deriving DecidableEq

/-- A serialized scalar field value. -/
inductive SerVal where
  | s (v : String)
  | n (v : ℚ)
  deriving DecidableEq

/-- `FoodItem.serialize_with_aliases` (app/schemas.py): the six canonical fields
followed by the back-compat alias keys `amount_grams`, `calories`, `carbs`. -/
def FoodItem.serialize_with_aliases (it : FoodItem) : List (String × SerVal) :=
  [ ("name", .s it.name)
  , ("grams", .n it.grams)
  , ("kcal", .n it.kcal)
  , ("protein", .n it.protein)
  , ("fat", .n it.fat)
  , ("carbohydrates", .n it.carbohydrates)
  , ("amount_grams", .n it.grams)
  , ("calories", .n it.kcal)
  , ("carbs", .n it.carbohydrates) ]

/-- `TotalNutrition.serialize_with_aliases` (app/schemas.py): the four canonical
fields followed by the alias keys `calories` and `carbs`. -/
def TotalNutrition.serialize_with_aliases (t : TotalNutrition) : List (String × SerVal) :=
  [ ("kcal", .n t.kcal)
  , ("protein", .n t.protein)
  , ("fat", .n t.fat)
  , ("carbohydrates", .n t.carbohydrates)
  , ("calories", .n t.kcal)
  , ("carbs", .n t.carbohydrates) ]

-- ==========================================================================
-- app/openrouter_client.py: field normalization and item parsing
-- ==========================================================================

/-- One `if alt in d and canonical not in d: d[canonical] = d.pop(alt)` block of
`normalize_item_fields` (app/openrouter_client.py): `dict.pop` removes the
alternate key and the canonical key is appended with its value. -/
def foldAltKey (d : List (String × JsonVal)) (alt canonical : String) :
    List (String × JsonVal) :=
  if JsonVal.dictHasKey d alt ∧ ¬ JsonVal.dictHasKey d canonical then
    JsonVal.dictPop d alt ++ [(canonical, JsonVal.dictGet d alt .jnull)]
  else d

/-- `normalize_item_fields` (app/openrouter_client.py): folds `carbs` into
`carbohydrates`, then `calories` into `kcal`, each only when the canonical key
is absent.  No other key is touched — in particular `amount_grams` is not
folded into `grams`. -/
def normalize_item_fields (item : List (String × JsonVal)) : List (String × JsonVal) :=
  foldAltKey (foldAltKey item "carbs" "carbohydrates") "calories" "kcal"

/-- Python `dict[key]` (`none` models `KeyError`). -/
def dictIndex (fields : List (String × JsonVal)) (key : String) : Option JsonVal :=
  fields.lookup key

/-- The `FoodItem(...)` construction inside `parse_ai_response`
(app/openrouter_client.py, lines 335–344): each field is read with `dict[key]`
(raising `KeyError` when absent) and the numeric fields go through `float`
(raising on non-numeric values); both exception paths are modelled as `none`
and surface as `OpenRouterError` in the caller. -/
def build_food_item (raw : List (String × JsonVal)) : Option FoodItem := do
  let normalized := normalize_item_fields raw
  let nameV ← dictIndex normalized "name"
  let grams ← (← dictIndex normalized "grams") |> pyFloat
  let kcal ← (← dictIndex normalized "kcal") |> pyFloat
  let protein ← (← dictIndex normalized "protein") |> pyFloat
  let fat ← (← dictIndex normalized "fat") |> pyFloat
  let carbohydrates ← (← dictIndex normalized "carbohydrates") |> pyFloat
  pure ⟨pyStr nameV, grams, kcal, protein, fat, carbohydrates⟩

/-- The totals computation of `recognize_food_with_bytes`
(app/openrouter_client.py, lines 543–548): a field-wise `sum` over the items. -/
def compute_total (items : List FoodItem) : TotalNutrition :=
  { kcal := (items.map FoodItem.kcal).sum
  , protein := (items.map FoodItem.protein).sum
  , fat := (items.map FoodItem.fat).sum
  , carbohydrates := (items.map FoodItem.carbohydrates).sum }

/-- The outcome of the recognition upstream call up to and including
`parse_ai_response`: either an `OpenRouterError` with its message, or the
parsed item list and model notes. -/
inductive RecogUpstream where
  | raised (msg : String)
  | okParsed (items : List FoodItem) (notes : Option String)

/-- The tail of `recognize_food_with_bytes` (app/openrouter_client.py): on a
parsed response it pairs the items with their computed `TotalNutrition`; an
`OpenRouterError` (transport, status, envelope or parse failure) propagates. -/
def recognize_food_with_bytes :
    RecogUpstream → Except String (List FoodItem × TotalNutrition × Option String)
  | .raised msg => .error msg
  | .okParsed items notes => .ok (items, compute_total items, notes)

-- ==========================================================================
-- app/openrouter_client.py: retry loop of _make_openrouter_request
-- ==========================================================================

/-- `RETRY_MAX_ATTEMPTS` (app/openrouter_client.py). -/
def RETRY_MAX_ATTEMPTS : ℕ := 3

/-- `RETRY_INITIAL_DELAY` (app/openrouter_client.py). -/
def RETRY_INITIAL_DELAY : ℚ := 1

/-- `RETRY_MAX_DELAY` (app/openrouter_client.py). -/
def RETRY_MAX_DELAY : ℚ := 10

/-- `RETRY_BACKOFF_MULTIPLIER` (app/openrouter_client.py). -/
def RETRY_BACKOFF_MULTIPLIER : ℚ := 2

/-- `RETRYABLE_STATUS_CODES` (app/openrouter_client.py). -/
def RETRYABLE_STATUS_CODES : List ℕ := [429, 500, 502, 503, 504]

/-- `NON_RETRYABLE_STATUS_CODES` (app/openrouter_client.py). -/
def NON_RETRYABLE_STATUS_CODES : List ℕ := [400, 401, 403, 413, 422]

/-- The backoff delay computed before a retry:
`min(RETRY_INITIAL_DELAY * RETRY_BACKOFF_MULTIPLIER ** (attempt - 1), RETRY_MAX_DELAY)`. -/
def retryDelay (attempt : ℕ) : ℚ :=
  min (RETRY_INITIAL_DELAY * RETRY_BACKOFF_MULTIPLIER ^ (attempt - 1)) RETRY_MAX_DELAY

/-- What one `client.post` attempt does: return a status, or raise a timeout
or network error. -/
inductive AttemptOutcome where
  | resp (status : ℕ)
  | timeout
  | netError

/-- How `_make_openrouter_request` ends: the last response is returned, or the
last transport exception is re-raised. -/
inductive ReqResult where
  | returned (status : ℕ)
  | raisedTimeout
  | raisedNetError
  | raisedUnexpected
  deriving DecidableEq

/-- The body of the `for attempt in range(1, RETRY_MAX_ATTEMPTS + 1)` loop of
`_make_openrouter_request` (app/openrouter_client.py).  `attempts` gives the
outcome of each numbered attempt; the returned list records the backoff sleeps
performed, in order.  A retryable status on a non-final attempt sleeps and
retries; on the final attempt the response is returned as-is.  A non-retryable
status (or success) returns immediately.  Transport exceptions retry the same
way and are re-raised after the final attempt. -/
def requestLoop (attempts : ℕ → AttemptOutcome) : ℕ → ℕ → ReqResult × List ℚ
  | _, 0 => (.raisedUnexpected, [])
  | attempt, remaining + 1 =>
    match attempts attempt with
    | .resp status =>
      if status ∈ RETRYABLE_STATUS_CODES then
        if attempt < RETRY_MAX_ATTEMPTS then
          let rest := requestLoop attempts (attempt + 1) remaining
          (rest.1, retryDelay attempt :: rest.2)
        else
          (.returned status, [])
      else
        (.returned status, [])
    | .timeout =>
      if attempt < RETRY_MAX_ATTEMPTS then
        let rest := requestLoop attempts (attempt + 1) remaining
        (rest.1, retryDelay attempt :: rest.2)
      else
        (.raisedTimeout, [])
    | .netError =>
      if attempt < RETRY_MAX_ATTEMPTS then
        let rest := requestLoop attempts (attempt + 1) remaining
        (rest.1, retryDelay attempt :: rest.2)
      else
        (.raisedNetError, [])

/-- `_make_openrouter_request` (app/openrouter_client.py): the loop starts at
attempt 1 with `RETRY_MAX_ATTEMPTS` iterations available. -/
def make_openrouter_request (attempts : ℕ → AttemptOutcome) : ReqResult × List ℚ :=
  requestLoop attempts 1 RETRY_MAX_ATTEMPTS

-- ==========================================================================
-- String helpers: Python `str.lower()` and the `in` substring test
-- ==========================================================================

/-- Python `str.lower()` (character-wise; the messages classified by the
handler are ASCII). -/
def lowerString (s : String) : String :=
  String.mk (s.toList.map Char.toLower)

/-- `leadsWith needle hay`: `hay` starts with `needle`. -/
def leadsWith : List Char → List Char → Bool
  | [], _ => true
  | _ :: _, [] => false
  | n :: ns, h :: hs => n = h && leadsWith ns hs

/-- `containsSeq hay needle`: `needle` occurs contiguously inside `hay`
(Python `needle in hay` on strings). -/
def containsSeq : List Char → List Char → Bool
  | [], needle => needle.isEmpty
  | h :: hs, needle => leadsWith needle (h :: hs) || containsSeq hs needle

/-- Python `needle in hay` for strings. -/
def strHas (hay needle : String) : Bool :=
  containsSeq hay.toList needle.toList

/-- The `except OpenRouterError` classification in `recognize_food`
(app/main.py, lines 333–340): the lowered message selects
`UPSTREAM_TIMEOUT`, `RATE_LIMIT` or `UPSTREAM_ERROR`. -/
def classify_openrouter_error (msg : String) : String :=
  let error_str := lowerString msg
  if strHas error_str "timeout" then "UPSTREAM_TIMEOUT"
  else if strHas error_str "rate" || strHas error_str "429" then "RATE_LIMIT"
  else "UPSTREAM_ERROR"

-- ==========================================================================
-- app/schemas.py: ERROR_DEFINITIONS and ErrorResponse
-- ==========================================================================

/-- One entry of `ERROR_DEFINITIONS` (app/schemas.py). -/
structure ErrDefn where
  http_status : ℕ
  user_title : String
  user_message : String
  user_actions : List String
  allow_retry : Bool
  deriving DecidableEq

/-- The `UPSTREAM_ERROR` entry, also the fallback of
`ERROR_DEFINITIONS.get(error_code, ERROR_DEFINITIONS["UPSTREAM_ERROR"])`. -/
def UPSTREAM_ERROR_DEFN : ErrDefn :=
  ⟨502, "Ошибка сервиса распознавания",
    "Попробуйте ещё раз через несколько секунд.", ["retry"], true⟩

/-- `ERROR_DEFINITIONS` (app/schemas.py): the read-only error taxonomy table. -/
def ERROR_DEFINITIONS : List (String × ErrDefn) :=
  [ ("UNSUPPORTED_CONTENT",
      ⟨400, "Похоже, на фото не еда",
        "Сфотографируйте блюдо крупнее при хорошем освещении.", ["retake"], false⟩)
  , ("EMPTY_RESULT",
      ⟨400, "Не удалось распознать блюдо",
        "Попробуйте сфотографировать еду ближе при хорошем освещении.", ["retake"], false⟩)
  , ("INVALID_IMAGE",
      ⟨400, "Некорректное изображение",
        "Не удалось прочитать файл. Попробуйте другое фото.", ["retake"], false⟩)
  , ("UNSUPPORTED_IMAGE_FORMAT",
      ⟨400, "Неподдерживаемый формат",
        "Поддерживаются только JPEG и PNG.", ["retake"], false⟩)
  , ("IMAGE_TOO_LARGE",
      ⟨413, "Файл слишком большой",
        "Максимальный размер — 5 МБ.", ["retake"], false⟩)
  , ("GATE_ERROR",
      ⟨502, "Ошибка проверки изображения",
        "Не удалось проверить содержимое изображения. Попробуйте ещё раз.", ["retry"], true⟩)
  , ("UPSTREAM_ERROR", UPSTREAM_ERROR_DEFN)
  , ("UPSTREAM_TIMEOUT",
      ⟨504, "Сервис не отвечает",
        "Попробуйте ещё раз.", ["retry"], true⟩)
  , ("RATE_LIMIT",
      ⟨429, "Слишком много запросов",
        "Подождите немного и попробуйте снова.", ["retry"], true⟩) ]

/-- `ErrorResponse` (app/schemas.py); the legacy fields `error` and
`error_message` are auto-populated from `error_code` and `user_message`
by its `__init__`. -/
structure ErrorResponse where
  status : String
  error_code : String
  user_title : String
  user_message : String
  user_actions : List String
  allow_retry : Bool
  trace_id : String
  error : String
  error_message : String
  deriving DecidableEq

-- ==========================================================================
-- app/config.py: Settings
-- ==========================================================================

/-- `Settings` (app/config.py).  These are the fields the class defines;
note it defines `food_gate_threshold` and `recognition_threshold` and no
`food_gate_min_threshold` / `food_gate_med_threshold`. -/
structure Settings where
  openrouter_gate_model : String
  openrouter_model : String
  max_image_size_bytes : ℕ
  food_gate_threshold : ℚ
  recognition_threshold : ℚ
  error_http200_compat : Bool

/-- Python attribute access `getattr(settings, name)` for the float-valued
settings.  A name that is not a declared field raises `AttributeError`
(pydantic `extra="ignore"` stores no extra attributes), modelled as `none`. -/
def Settings.getFloatAttr (st : Settings) : String → Option ℚ
  | "food_gate_threshold" => some st.food_gate_threshold
  | "recognition_threshold" => some st.recognition_threshold
  | _ => none

-- ==========================================================================
-- app/main.py: helpers
-- ==========================================================================

/-- `ALLOWED_CONTENT_TYPES` (app/main.py). -/
def ALLOWED_CONTENT_TYPES : List String := ["image/jpeg", "image/png", "image/jpg"]

/-- `make_error_response` (app/main.py): looks the code up in
`ERROR_DEFINITIONS` (falling back to the `UPSTREAM_ERROR` entry), forces the
HTTP status to 200 when `settings.error_http200_compat` is set, and builds the
`ErrorResponse` body. -/
def make_error_response (st : Settings) (error_code : String) (trace_id : String)
    (custom_message : Option String) : ErrorResponse × ℕ :=
  let defn := (ERROR_DEFINITIONS.lookup error_code).getD UPSTREAM_ERROR_DEFN
  let http_status := if st.error_http200_compat then 200 else defn.http_status
  let user_message := custom_message.getD defn.user_message
  (⟨"error", error_code, defn.user_title, user_message, defn.user_actions,
      defn.allow_retry, trace_id, error_code, user_message⟩,
    http_status)

/-- `validate_recognition_result` (app/main.py).  `total = none` models Python
`total is None`; with floats modelled as `ℚ`, `total.kcal` is a non-optional
rational, so the `kcal is None` and `math.isnan` guards cannot fire. -/
def validate_recognition_result (items : List FoodItem) (total : Option TotalNutrition) : Bool :=
  if items.isEmpty then false
  else
    match total with
    | none => false
    | some _ => true

-- ==========================================================================
-- app/food_gate.py: check_food_gate
-- ==========================================================================

/-- What the gate's single `client.post` produces: a timeout, a network error,
or a response with a status, body text and — when the status is 200 and the
completion envelope is well-formed — the repaired value of the assistant text
(`content = none` on a 200 covers the non-dict-envelope and missing
`choices`/`message`/`content` cases, which also raise). -/
inductive GateUpstream where
  | timeout
  | requestError (msg : String)
  | response (status : ℕ) (text : String) (content : Option JsonVal)

/-- How `check_food_gate` ends: an `OpenRouterError` with its message, or a
`GateResult`. -/
inductive GateOutcome where
  | raised (msg : String)
  | ok (g : GateResult)

/-- `check_food_gate` (app/food_gate.py): a 429 raises the rate-limit error,
any other non-200 raises `Gate API error: ...`, timeouts and network errors
raise their own messages, and a 200 routes the assistant text through
`parse_gate_response`. -/
def check_food_gate : GateUpstream → GateOutcome
  | .timeout => .raised "Gate timeout"
  | .requestError msg => .raised ("Gate network error: " ++ msg)
  | .response status text content =>
    if status = 429 then .raised "Gate rate limited (429)"
    else if status ≠ 200 then
      .raised ("Gate API error: " ++ toString status ++ " " ++ text.take 200)
    else
      match content with
      | none => .raised "Gate API response missing expected fields"
      | some v => .ok (parse_gate_response v)

-- ==========================================================================
-- app/main.py: the recognize_food endpoint
-- ==========================================================================

/-- `SuccessResponse` (app/schemas.py) together with its `RecognitionResult`
payload. -/
structure SuccessResponse where
  status : String
  is_food : Bool
  confidence : ℚ
  gate_reason : String
  trace_id : String
  items : List FoodItem
  total : TotalNutrition
  model_notes : Option String
  deriving DecidableEq

/-- The JSON body the endpoint returns. -/
inductive ResponseBody where
  | success (resp : SuccessResponse)
  | error (resp : ErrorResponse)
  deriving DecidableEq

/-- The observable outcome of one request: HTTP status, body, and the trace of
upstream stages actually invoked (`"gate"`, `"recognition"`). -/
structure HandlerResult where
  http_status : ℕ
  body : ResponseBody
  upstream_calls : List String
  deriving DecidableEq

/-- The error code carried by the result, `none` on success. -/
def HandlerResult.errorCode (r : HandlerResult) : Option String :=
  match r.body with
  | .success _ => none
  | .error e => some e.error_code

/-- The `status` field of the body (`"success"` or `"error"`). -/
def HandlerResult.bodyStatus (r : HandlerResult) : String :=
  match r.body with
  | .success s => s.status
  | .error e => e.status

/-- The `recognize_food` endpoint handler (app/main.py), embedded from the
point after authentication and `image.read()` have succeeded.  `content_type`
and `content_len` describe the upload; `gate` and `recog` are the outcomes the
two upstream calls would produce if made, and the result records which were
actually made.  Mirrors the source order: content-type allow-list, empty file,
size cap, gate call, `is_food is None` check, the short-circuit
`not gate_result.is_food or confidence < settings.food_gate_min_threshold`
(whose right operand raises `AttributeError` — `Settings` declares no
`food_gate_min_threshold`, Python evaluates it only when `is_food` is truthy,
and the outer `except Exception` turns it into `UPSTREAM_ERROR`), the
would-follow recognition call, post-validation and success assembly. -/
def recognize_food (st : Settings) (content_type : String) (content_len : ℕ)
    (trace_id : String) (gate : GateUpstream) (recog : RecogUpstream) : HandlerResult :=
  if content_type ∉ ALLOWED_CONTENT_TYPES then
    let r := make_error_response st "UNSUPPORTED_IMAGE_FORMAT" trace_id none
    ⟨r.2, .error r.1, []⟩
  else if content_len = 0 then
    let r := make_error_response st "INVALID_IMAGE" trace_id (some "Пустой файл.")
    ⟨r.2, .error r.1, []⟩
  else if content_len > st.max_image_size_bytes then
    let r := make_error_response st "IMAGE_TOO_LARGE" trace_id none
    ⟨r.2, .error r.1, []⟩
  else
    match check_food_gate gate with
    | .raised msg =>
      let r := make_error_response st (classify_openrouter_error msg) trace_id none
      ⟨r.2, .error r.1, ["gate"]⟩
    | .ok gate_result =>
      match gate_result.is_food with
      | none =>
        let r := make_error_response st "GATE_ERROR" trace_id none
        ⟨r.2, .error r.1, ["gate"]⟩
      | some isFoodFlag =>
        let confidence := gate_result.confidence.getD 0
        if isFoodFlag = false then
          let r := make_error_response st "UNSUPPORTED_CONTENT" trace_id none
          ⟨r.2, .error r.1, ["gate"]⟩
        else
          match st.getFloatAttr "food_gate_min_threshold" with
          | none =>
            let r := make_error_response st "UPSTREAM_ERROR" trace_id none
            ⟨r.2, .error r.1, ["gate"]⟩
          | some minThreshold =>
            if confidence < minThreshold then
              let r := make_error_response st "UNSUPPORTED_CONTENT" trace_id none
              ⟨r.2, .error r.1, ["gate"]⟩
            else
              match st.getFloatAttr "food_gate_med_threshold" with
              | none =>
                let r := make_error_response st "UPSTREAM_ERROR" trace_id none
                ⟨r.2, .error r.1, ["gate"]⟩
              | some medThreshold =>
                let is_low_confidence_zone := confidence < medThreshold
                match recognize_food_with_bytes recog with
                | .error msg =>
                  let r :=
                    make_error_response st (classify_openrouter_error msg) trace_id none
                  ⟨r.2, .error r.1, ["gate", "recognition"]⟩
                | .ok (items, total, model_notes) =>
                  if validate_recognition_result items (some total) = false then
                    let code :=
                      if is_low_confidence_zone then "LOW_CONFIDENCE" else "EMPTY_RESULT"
                    let r := make_error_response st code trace_id none
                    ⟨r.2, .error r.1, ["gate", "recognition"]⟩
                  else
                    ⟨200,
                      .success
                        ⟨"success", true, gate_result.confidence.getD 0,
                          gate_result.reason, trace_id, items, total, model_notes⟩,
                      ["gate", "recognition"]⟩

-- ==========================================================================
-- Association-list helper lemmas
-- ==========================================================================

/-- Removing the bindings of a different key leaves a lookup unchanged. -/
theorem lookup_dictPop_ne (l : List (String × JsonVal)) (k k' : String) (h : k ≠ k') :
    (JsonVal.dictPop l k').lookup k = l.lookup k := by
  induction l with
  | nil => rfl
  | cons kv tl ih =>
    obtain ⟨a, b⟩ := kv
    by_cases ha : a = k'
    · subst ha
      have hka : (k == a) = false := by simp [h]
      simp [JsonVal.dictPop, List.filter, List.lookup, hka] at ih ⊢
      exact ih
    · by_cases hka : k = a
      · subst hka
        simp [JsonVal.dictPop, List.filter, List.lookup, ha]
      · have hb : (k == a) = false := by simp [hka]
        simp [JsonVal.dictPop, List.filter, List.lookup, ha, hb] at ih ⊢
        exact ih

/-- Lookup over an appended association list: the left part wins. -/
theorem lookup_append_alist (l1 l2 : List (String × JsonVal)) (k : String) :
    (l1 ++ l2).lookup k =
      match l1.lookup k with
      | some v => some v
      | none => l2.lookup k := by
  induction l1 with
  | nil => simp [List.lookup]
  | cons kv tl ih =>
    obtain ⟨a, b⟩ := kv
    by_cases hka : k = a
    · subst hka
      simp [List.lookup]
    · have hb : (k == a) = false := by simp [hka]
      simp [List.lookup, hb, ih]

/-- `foldAltKey` leaves every key other than the alternate and the canonical
one untouched. -/
theorem lookup_foldAltKey_other (d : List (String × JsonVal)) (alt canonical k : String)
    (h1 : k ≠ alt) (h2 : k ≠ canonical) :
    (foldAltKey d alt canonical).lookup k = d.lookup k := by
  unfold foldAltKey
  split
  · rw [lookup_append_alist, lookup_dictPop_ne _ _ _ h1]
    cases hl : d.lookup k with
    | some v => rfl
    | none =>
      have hb : (k == canonical) = false := by simp [h2]
      simp [List.lookup, hb]
  · rfl

/-- Key-presence version of `lookup_foldAltKey_other`. -/
theorem hasKey_foldAltKey_other (d : List (String × JsonVal)) (alt canonical k : String)
    (h1 : k ≠ alt) (h2 : k ≠ canonical) :
    JsonVal.dictHasKey (foldAltKey d alt canonical) k = JsonVal.dictHasKey d k := by
  unfold JsonVal.dictHasKey
  rw [lookup_foldAltKey_other d alt canonical k h1 h2]

/-- When the alternate key is present and the canonical one absent,
`foldAltKey` moves the alternate value to the canonical key. -/
theorem lookup_foldAltKey_fold (d : List (String × JsonVal)) (alt canonical : String)
    (hne : canonical ≠ alt)
    (ha : JsonVal.dictHasKey d alt = true) (hc : JsonVal.dictHasKey d canonical = false) :
    (foldAltKey d alt canonical).lookup canonical = d.lookup alt := by
  unfold foldAltKey
  rw [if_pos ⟨ha, by simp [hc]⟩]
  rw [lookup_append_alist, lookup_dictPop_ne _ _ _ hne]
  have hcn : d.lookup canonical = none := by
    unfold JsonVal.dictHasKey at hc
    exact Option.not_isSome_iff_eq_none.mp (by simp [hc])
  rw [hcn]
  obtain ⟨v, hv⟩ :=
    Option.isSome_iff_exists.mp (by unfold JsonVal.dictHasKey at ha; exact ha)
  simp [List.lookup, JsonVal.dictGet, hv]

/-- When the canonical key is present, `foldAltKey` is the identity. -/
theorem foldAltKey_canonical_present (d : List (String × JsonVal)) (alt canonical : String)
    (hc : JsonVal.dictHasKey d canonical = true) :
    foldAltKey d alt canonical = d := by
  unfold foldAltKey
  rw [if_neg]
  simp [hc]

-- ==========================================================================
-- Claim C1
-- ==========================================================================

/-- C1 (code bug): in the Scenario-A configuration — a valid JPEG upload, the
gate returning `{"is_food": true, "confidence": 0.9}` and recognition ready to
return two items whose kcal sum to 450 — the endpoint does NOT return SUCCESS
with `total.kcal = 450`.  Because `main.py` reads
`settings.food_gate_min_threshold` while `config.py` declares only
`food_gate_threshold`, the attribute access raises and the outer handler maps
it to `UPSTREAM_ERROR`; recognition is never invoked (only the gate is
called), even though the totals of the two items would indeed be 450 kcal. -/
theorem scenario_a_yields_upstream_error_not_success :
    (recognize_food ⟨"", "openai/gpt-4o-mini", 5242880, 6/10, 13/20, false⟩ "image/jpeg"
        1000 "tid"
        (.response 200 ""
          (some (.jobj
            [("is_food", .jbool true), ("confidence", .jnum (9/10)),
              ("reason", .jstr "еда")])))
        (.okParsed [⟨"Рис", 150, 200, 4, 1, 44⟩, ⟨"Курица", 120, 250, 30, 12, 0⟩]
          (some "ок"))).errorCode = some "UPSTREAM_ERROR" ∧
    (recognize_food ⟨"", "openai/gpt-4o-mini", 5242880, 6/10, 13/20, false⟩ "image/jpeg"
        1000 "tid"
        (.response 200 ""
          (some (.jobj
            [("is_food", .jbool true), ("confidence", .jnum (9/10)),
              ("reason", .jstr "еда")])))
        (.okParsed [⟨"Рис", 150, 200, 4, 1, 44⟩, ⟨"Курица", 120, 250, 30, 12, 0⟩]
          (some "ок"))).upstream_calls = ["gate"] ∧
    (compute_total [⟨"Рис", 150, 200, 4, 1, 44⟩, ⟨"Курица", 120, 250, 30, 12, 0⟩]).kcal
      = 450 :=
  ⟨by decide, by decide, by norm_num [compute_total]⟩

-- ==========================================================================
-- Claim C2
-- ==========================================================================

/-- C2 (counterexample): a request whose gate call times out does NOT produce
`GATE_ERROR` with HTTP 502 (compat flag off): the raised message
`Gate timeout` is classified by substring inspection and yields
`UPSTREAM_TIMEOUT` with HTTP 504. -/
theorem gate_timeout_not_gate_error_counterexample :
    (recognize_food ⟨"", "openai/gpt-4o-mini", 5242880, 6/10, 13/20, false⟩ "image/jpeg"
        1000 "tid" .timeout (.raised "x")).errorCode ≠ some "GATE_ERROR" ∧
    (recognize_food ⟨"", "openai/gpt-4o-mini", 5242880, 6/10, 13/20, false⟩ "image/jpeg"
        1000 "tid" .timeout (.raised "x")).http_status ≠ 502 ∧
    (recognize_food ⟨"", "openai/gpt-4o-mini", 5242880, 6/10, 13/20, false⟩ "image/jpeg"
        1000 "tid" .timeout (.raised "x")).errorCode = some "UPSTREAM_TIMEOUT" ∧
    (recognize_food ⟨"", "openai/gpt-4o-mini", 5242880, 6/10, 13/20, false⟩ "image/jpeg"
        1000 "tid" .timeout (.raised "x")).http_status = 504 := by
  refine ⟨by decide, by decide, by decide, by decide⟩

/-- C2 (amended): for every request that passes image validation and whose
gate-stage upstream call times out, the endpoint returns error code
`UPSTREAM_TIMEOUT` with HTTP status 504 (when the legacy HTTP-200
compatibility flag is off), and only the gate was called. -/
theorem gate_timeout_maps_to_upstream_timeout (st : Settings) (ct tid : String) (n : ℕ)
    (recog : RecogUpstream) (hct : ct ∈ ALLOWED_CONTENT_TYPES) (h0 : n ≠ 0)
    (hmax : n ≤ st.max_image_size_bytes) (hcompat : st.error_http200_compat = false) :
    (recognize_food st ct n tid .timeout recog).errorCode = some "UPSTREAM_TIMEOUT" ∧
    (recognize_food st ct n tid .timeout recog).http_status = 504 ∧
    (recognize_food st ct n tid .timeout recog).upstream_calls = ["gate"] := by
  have hclass : classify_openrouter_error "Gate timeout" = "UPSTREAM_TIMEOUT" := by decide
  have hnotmax : ¬ (st.max_image_size_bytes < n) := Nat.not_lt.mpr hmax
  simp [recognize_food, hct, h0, hnotmax, check_food_gate, hclass, make_error_response,
    ERROR_DEFINITIONS, UPSTREAM_ERROR_DEFN, hcompat, HandlerResult.errorCode]
  decide

/-- Witness for `gate_timeout_maps_to_upstream_timeout` at a concrete request. -/
theorem gate_timeout_maps_to_upstream_timeout_witness :
    (recognize_food ⟨"", "m", 5242880, 6/10, 13/20, false⟩ "image/jpeg" 1000 "t" .timeout
        (.raised "x")).errorCode = some "UPSTREAM_TIMEOUT" ∧
    (recognize_food ⟨"", "m", 5242880, 6/10, 13/20, false⟩ "image/jpeg" 1000 "t" .timeout
        (.raised "x")).http_status = 504 ∧
    (recognize_food ⟨"", "m", 5242880, 6/10, 13/20, false⟩ "image/jpeg" 1000 "t" .timeout
        (.raised "x")).upstream_calls = ["gate"] :=
  gate_timeout_maps_to_upstream_timeout ⟨"", "m", 5242880, 6/10, 13/20, false⟩ "image/jpeg"
    "t" 1000 (.raised "x") (by decide) (by decide) (by decide) rfl

-- ==========================================================================
-- Claim C3
-- ==========================================================================

/-- C3 (counterexample): a repaired root that IS an object can still yield
`isFood = none`: with `"confidence": "high"` the `float` coercion raises and
the `except` branch returns the unparseable marker. -/
theorem object_root_confidence_coercion_counterexample :
    JsonVal.isObj (.jobj [("is_food", .jbool true), ("confidence", .jstr "high")]) = true ∧
    (parse_gate_response
        (.jobj [("is_food", .jbool true), ("confidence", .jstr "high")])).is_food
      = none := by
  refine ⟨rfl, rfl⟩

/-- C3 (amended): gate parsing yields `isFood = none` iff the repaired root is
not an object, or it is an object whose `confidence` value fails the `float`
coercion; a non-object root is never reported as `isFood = false`. -/
theorem gate_parse_none_iff_nonobject_or_confidence_fails (v : JsonVal) :
    ((parse_gate_response v).is_food = none ↔
      (JsonVal.isObj v = false ∨ gateConfidenceCoercionFails v = true)) ∧
    (JsonVal.isObj v = false → (parse_gate_response v).is_food ≠ some false) := by
  cases v with
  | jobj fields =>
    cases h : pyFloat (JsonVal.dictGet fields "confidence" (.jnum 0)) with
    | none => simp [parse_gate_response, h, JsonVal.isObj, gateConfidenceCoercionFails]
    | some c => simp [parse_gate_response, h, JsonVal.isObj, gateConfidenceCoercionFails]
  | jnull => simp [parse_gate_response, JsonVal.isObj, gateConfidenceCoercionFails]
  | jbool b => simp [parse_gate_response, JsonVal.isObj, gateConfidenceCoercionFails]
  | jnum q => simp [parse_gate_response, JsonVal.isObj, gateConfidenceCoercionFails]
  | jstr s => simp [parse_gate_response, JsonVal.isObj, gateConfidenceCoercionFails]
  | jarr xs => simp [parse_gate_response, JsonVal.isObj, gateConfidenceCoercionFails]

/-- Witness for `gate_parse_none_iff_nonobject_or_confidence_fails` at a bare
string root. -/
theorem gate_parse_none_iff_nonobject_or_confidence_fails_witness :
    (parse_gate_response (.jstr "this is not json at all")).is_food ≠ some false :=
  (gate_parse_none_iff_nonobject_or_confidence_fails (.jstr "this is not json at all")).2 rfl

-- ==========================================================================
-- Claim C4
-- ==========================================================================

/-- C4 (counterexample): an item carrying its weight only as `amount_grams` is
NOT folded into `grams` by `normalize_item_fields`; the subsequent `FoodItem`
construction then fails on the missing `grams` key. -/
theorem amount_grams_not_folded_counterexample :
    ((normalize_item_fields
        [("name", .jstr "Рис"), ("amount_grams", .jnum 150), ("kcal", .jnum 200),
          ("protein", .jnum 4), ("fat", .jnum 1), ("carbohydrates", .jnum 44)]).lookup
        "grams").isSome = false ∧
    build_food_item
        [("name", .jstr "Рис"), ("amount_grams", .jnum 150), ("kcal", .jnum 200),
          ("protein", .jnum 4), ("fat", .jnum 1), ("carbohydrates", .jnum 44)] = none := by
  refine ⟨rfl, rfl⟩

/-- C4 (amended): recognition-response coercion folds the alternate keys
`carbs` → `carbohydrates` and `calories` → `kcal`, with the canonical key
taking precedence when both are present; `amount_grams` is never folded into
`grams` (both keys pass through unchanged). -/
theorem alias_folding_carbs_calories_only (d : List (String × JsonVal)) :
    (JsonVal.dictHasKey d "carbs" = true → JsonVal.dictHasKey d "carbohydrates" = false →
      (normalize_item_fields d).lookup "carbohydrates" = d.lookup "carbs") ∧
    (JsonVal.dictHasKey d "carbohydrates" = true →
      (normalize_item_fields d).lookup "carbohydrates" = d.lookup "carbohydrates") ∧
    (JsonVal.dictHasKey d "calories" = true → JsonVal.dictHasKey d "kcal" = false →
      (normalize_item_fields d).lookup "kcal" = d.lookup "calories") ∧
    (JsonVal.dictHasKey d "kcal" = true →
      (normalize_item_fields d).lookup "kcal" = d.lookup "kcal") ∧
    (normalize_item_fields d).lookup "grams" = d.lookup "grams" ∧
    (normalize_item_fields d).lookup "amount_grams" = d.lookup "amount_grams" := by
  unfold normalize_item_fields
  set n1 := foldAltKey d "carbs" "carbohydrates" with hn1
  refine ⟨?_, ?_, ?_, ?_, ?_, ?_⟩
  · intro ha hc
    rw [lookup_foldAltKey_other n1 "calories" "kcal" "carbohydrates" (by decide) (by decide),
      hn1]
    exact lookup_foldAltKey_fold d "carbs" "carbohydrates" (by decide) ha hc
  · intro hc
    rw [lookup_foldAltKey_other n1 "calories" "kcal" "carbohydrates" (by decide) (by decide),
      hn1, foldAltKey_canonical_present d "carbs" "carbohydrates" hc]
  · intro ha hk
    have ha1 : JsonVal.dictHasKey n1 "calories" = true := by
      rw [hn1,
        hasKey_foldAltKey_other d "carbs" "carbohydrates" "calories" (by decide) (by decide)]
      exact ha
    have hk1 : JsonVal.dictHasKey n1 "kcal" = false := by
      rw [hn1,
        hasKey_foldAltKey_other d "carbs" "carbohydrates" "kcal" (by decide) (by decide)]
      exact hk
    rw [lookup_foldAltKey_fold n1 "calories" "kcal" (by decide) ha1 hk1, hn1,
      lookup_foldAltKey_other d "carbs" "carbohydrates" "calories" (by decide) (by decide)]
  · intro hk
    have hk1 : JsonVal.dictHasKey n1 "kcal" = true := by
      rw [hn1,
        hasKey_foldAltKey_other d "carbs" "carbohydrates" "kcal" (by decide) (by decide)]
      exact hk
    rw [foldAltKey_canonical_present n1 "calories" "kcal" hk1, hn1,
      lookup_foldAltKey_other d "carbs" "carbohydrates" "kcal" (by decide) (by decide)]
  · rw [lookup_foldAltKey_other n1 "calories" "kcal" "grams" (by decide) (by decide), hn1,
      lookup_foldAltKey_other d "carbs" "carbohydrates" "grams" (by decide) (by decide)]
  · rw [lookup_foldAltKey_other n1 "calories" "kcal" "amount_grams" (by decide) (by decide),
      hn1,
      lookup_foldAltKey_other d "carbs" "carbohydrates" "amount_grams" (by decide)
        (by decide)]

/-- Witness for `alias_folding_carbs_calories_only` on concrete item dicts. -/
theorem alias_folding_carbs_calories_only_witness :
    (normalize_item_fields [("carbs", JsonVal.jnum 10)]).lookup "carbohydrates"
        = [("carbs", JsonVal.jnum 10)].lookup "carbs" ∧
    (normalize_item_fields
          [("carbohydrates", JsonVal.jnum 7), ("carbs", JsonVal.jnum 10)]).lookup
          "carbohydrates"
        = [("carbohydrates", JsonVal.jnum 7), ("carbs", JsonVal.jnum 10)].lookup
          "carbohydrates" ∧
    (normalize_item_fields [("calories", JsonVal.jnum 100)]).lookup "kcal"
        = [("calories", JsonVal.jnum 100)].lookup "calories" ∧
    (normalize_item_fields
          [("kcal", JsonVal.jnum 100), ("calories", JsonVal.jnum 1)]).lookup "kcal"
        = [("kcal", JsonVal.jnum 100), ("calories", JsonVal.jnum 1)].lookup "kcal" :=
  ⟨(alias_folding_carbs_calories_only [("carbs", JsonVal.jnum 10)]).1 rfl rfl,
    (alias_folding_carbs_calories_only
      [("carbohydrates", JsonVal.jnum 7), ("carbs", JsonVal.jnum 10)]).2.1 rfl,
    (alias_folding_carbs_calories_only [("calories", JsonVal.jnum 100)]).2.2.1 rfl rfl,
    (alias_folding_carbs_calories_only
      [("kcal", JsonVal.jnum 100), ("calories", JsonVal.jnum 1)]).2.2.2.1 rfl⟩

-- ==========================================================================
-- Claim C5
-- ==========================================================================

/-- C5: three consecutive 503 responses produce exactly 2 backoff sleeps, of
1.0 then 2.0 time-units, and the final 503 response is returned (not raised);
a 401 on the first attempt returns immediately with no sleeps. -/
theorem retry_policy_503_and_401 :
    (∀ attempts : ℕ → AttemptOutcome, (∀ i, attempts i = .resp 503) →
      make_openrouter_request attempts = (.returned 503, [1, 2])) ∧
    (∀ attempts : ℕ → AttemptOutcome, attempts 1 = .resp 401 →
      make_openrouter_request attempts = (.returned 401, [])) := by
  constructor
  · intro attempts h
    simp [make_openrouter_request, RETRY_MAX_ATTEMPTS, requestLoop, h 1, h 2, h 3,
      RETRYABLE_STATUS_CODES, retryDelay, RETRY_INITIAL_DELAY, RETRY_BACKOFF_MULTIPLIER,
      RETRY_MAX_DELAY]
    norm_num
  · intro attempts h
    simp [make_openrouter_request, RETRY_MAX_ATTEMPTS, requestLoop, h,
      RETRYABLE_STATUS_CODES]

/-- Witness for `retry_policy_503_and_401` at constant attempt outcomes. -/
theorem retry_policy_503_and_401_witness :
    make_openrouter_request (fun _ => .resp 503) = (.returned 503, [1, 2]) ∧
    make_openrouter_request (fun _ => .resp 401) = (.returned 401, []) :=
  ⟨retry_policy_503_and_401.1 (fun _ => .resp 503) (fun _ => rfl),
    retry_policy_503_and_401.2 (fun _ => .resp 401) rfl⟩

-- ==========================================================================
-- Claim C6
-- ==========================================================================

/-- C6: the recognition outcome's totals are the field-wise sums of the items
(kcal, protein, fat, carbohydrates); the totals of the empty list are all
zero; and `validate_recognition_result` classifies an empty item list as
invalid. -/
theorem totals_fieldwise_sum_and_empty_invalid :
    (∀ (items : List FoodItem) (notes : Option String),
      recognize_food_with_bytes (.okParsed items notes) =
        .ok (items,
          ⟨(items.map FoodItem.kcal).sum, (items.map FoodItem.protein).sum,
            (items.map FoodItem.fat).sum, (items.map FoodItem.carbohydrates).sum⟩,
          notes)) ∧
    compute_total [] = ⟨0, 0, 0, 0⟩ ∧
    (∀ t : TotalNutrition, validate_recognition_result [] (some t) = false) :=
  ⟨fun _ _ => rfl, rfl, fun _ => rfl⟩

-- ==========================================================================
-- Claim C7
-- ==========================================================================

/-- C7: every `GateResult` produced by gate parsing with `isFood = true`
carries a non-null confidence lying in `[0, 1]`; and whenever the numeric
coercion of the confidence field succeeds with value `q`, the decision is
parseable and the stored confidence is the clamp of `q` to `[0, 1]` —
out-of-range values are clamped, never rejected. -/
theorem gate_confidence_present_and_clamped :
    (∀ v : JsonVal, (parse_gate_response v).is_food = some true →
      ∃ c, (parse_gate_response v).confidence = some c ∧ 0 ≤ c ∧ c ≤ 1) ∧
    (∀ (fields : List (String × JsonVal)) (q : ℚ),
      pyFloat (JsonVal.dictGet fields "confidence" (.jnum 0)) = some q →
      (parse_gate_response (.jobj fields)).is_food.isSome = true ∧
      (parse_gate_response (.jobj fields)).confidence = some (max 0 (min 1 q))) := by
  constructor
  · intro v hv
    cases v with
    | jobj fields =>
      cases h : pyFloat (JsonVal.dictGet fields "confidence" (.jnum 0)) with
      | none => simp [parse_gate_response, h] at hv
      | some c =>
        refine ⟨max 0 (min 1 c), ?_, le_max_left _ _,
          max_le (by norm_num) (min_le_left _ _)⟩
        simp [parse_gate_response, h]
    | jnull => simp [parse_gate_response] at hv
    | jbool b => simp [parse_gate_response] at hv
    | jnum q => simp [parse_gate_response] at hv
    | jstr s => simp [parse_gate_response] at hv
    | jarr xs => simp [parse_gate_response] at hv
  · intro fields q h
    simp [parse_gate_response, h]

/-- Witness for `gate_confidence_present_and_clamped` at concrete gate
responses (one with a defaulted confidence, one clamped from 1.5). -/
theorem gate_confidence_present_and_clamped_witness :
    (∃ c, (parse_gate_response (.jobj [("is_food", JsonVal.jbool true)])).confidence
        = some c ∧ 0 ≤ c ∧ c ≤ 1) ∧
    ((parse_gate_response
          (.jobj [("confidence", JsonVal.jnum (3/2))])).is_food.isSome = true ∧
      (parse_gate_response (.jobj [("confidence", JsonVal.jnum (3/2))])).confidence
        = some (max 0 (min 1 (3/2)))) :=
  ⟨gate_confidence_present_and_clamped.1 (.jobj [("is_food", JsonVal.jbool true)]) rfl,
    gate_confidence_present_and_clamped.2 [("confidence", JsonVal.jnum (3/2))] (3/2) rfl⟩

-- ==========================================================================
-- Claim C8
-- ==========================================================================

/-- C8 (counterexample): a request with a 0-byte upload whose content type is
not in the allow-list returns `UNSUPPORTED_IMAGE_FORMAT`, not `INVALID_IMAGE`
— the content-type check runs before the size check. -/
theorem zero_byte_upload_content_type_counterexample :
    (recognize_food ⟨"", "openai/gpt-4o-mini", 5242880, 6/10, 13/20, false⟩ "text/plain" 0
        "tid" .timeout (.raised "x")).errorCode = some "UNSUPPORTED_IMAGE_FORMAT" ∧
    (recognize_food ⟨"", "openai/gpt-4o-mini", 5242880, 6/10, 13/20, false⟩ "text/plain" 0
        "tid" .timeout (.raised "x")).errorCode ≠ some "INVALID_IMAGE" := by
  refine ⟨by decide, by decide⟩

/-- C8 (amended): every request with an allow-listed content type whose
uploaded file has 0 bytes returns error code `INVALID_IMAGE`, and neither the
gate nor the recognition upstream call is made. -/
theorem zero_byte_allowed_upload_invalid_image (st : Settings) (ct tid : String)
    (gate : GateUpstream) (recog : RecogUpstream) (hct : ct ∈ ALLOWED_CONTENT_TYPES) :
    (recognize_food st ct 0 tid gate recog).errorCode = some "INVALID_IMAGE" ∧
    (recognize_food st ct 0 tid gate recog).upstream_calls = [] := by
  simp [recognize_food, hct, make_error_response, HandlerResult.errorCode]

/-- Witness for `zero_byte_allowed_upload_invalid_image` at a concrete
request. -/
theorem zero_byte_allowed_upload_invalid_image_witness :
    (recognize_food ⟨"", "m", 5242880, 6/10, 13/20, false⟩ "image/png" 0 "t" .timeout
        (.raised "x")).errorCode = some "INVALID_IMAGE" ∧
    (recognize_food ⟨"", "m", 5242880, 6/10, 13/20, false⟩ "image/png" 0 "t" .timeout
        (.raised "x")).upstream_calls = [] :=
  zero_byte_allowed_upload_invalid_image ⟨"", "m", 5242880, 6/10, 13/20, false⟩ "image/png"
    "t" .timeout (.raised "x") (by decide)

-- ==========================================================================
-- Claim C9
-- ==========================================================================

/-- C9: for an error code present in `ERROR_DEFINITIONS`, the HTTP status with
the compat flag off equals the table entry's status; with the flag on the HTTP
status is 200 while the body's `status` and `error_code` fields coincide with
the non-compat body's. -/
theorem error_http_status_table_and_compat (st st' : Settings) (code tid : String)
    (cm : Option String) (defn : ErrDefn)
    (hlook : ERROR_DEFINITIONS.lookup code = some defn)
    (hoff : st.error_http200_compat = false) (hon : st'.error_http200_compat = true) :
    (make_error_response st code tid cm).2 = defn.http_status ∧
    (make_error_response st' code tid cm).2 = 200 ∧
    (make_error_response st' code tid cm).1.error_code =
      (make_error_response st code tid cm).1.error_code ∧
    (make_error_response st' code tid cm).1.status =
      (make_error_response st code tid cm).1.status := by
  simp [make_error_response, hlook, hoff, hon]

/-- Witness for `error_http_status_table_and_compat` at `GATE_ERROR`. -/
theorem error_http_status_table_and_compat_witness :
    (make_error_response ⟨"", "m", 5242880, 6/10, 13/20, false⟩ "GATE_ERROR" "t" none).2
        = 502 ∧
    (make_error_response ⟨"", "m", 5242880, 6/10, 13/20, true⟩ "GATE_ERROR" "t" none).2
        = 200 ∧
    (make_error_response ⟨"", "m", 5242880, 6/10, 13/20, true⟩ "GATE_ERROR" "t"
          none).1.error_code
        = (make_error_response ⟨"", "m", 5242880, 6/10, 13/20, false⟩ "GATE_ERROR" "t"
          none).1.error_code ∧
    (make_error_response ⟨"", "m", 5242880, 6/10, 13/20, true⟩ "GATE_ERROR" "t"
          none).1.status
        = (make_error_response ⟨"", "m", 5242880, 6/10, 13/20, false⟩ "GATE_ERROR" "t"
          none).1.status :=
  error_http_status_table_and_compat ⟨"", "m", 5242880, 6/10, 13/20, false⟩
    ⟨"", "m", 5242880, 6/10, 13/20, true⟩ "GATE_ERROR" "t" none
    ⟨502, "Ошибка проверки изображения",
      "Не удалось проверить содержимое изображения. Попробуйте ещё раз.", ["retry"], true⟩
    rfl rfl rfl

-- ==========================================================================
-- Claim C10
-- ==========================================================================

/-- C10: every serialized item carries the canonical fields plus the legacy
aliases `amount_grams = grams`, `calories = kcal`, `carbs = carbohydrates`;
serialized totals likewise carry `calories = kcal` and
`carbs = carbohydrates`. -/
theorem serializers_emit_legacy_aliases :
    (∀ it : FoodItem,
      it.serialize_with_aliases.lookup "amount_grams" = some (.n it.grams) ∧
      it.serialize_with_aliases.lookup "calories" = some (.n it.kcal) ∧
      it.serialize_with_aliases.lookup "carbs" = some (.n it.carbohydrates) ∧
      it.serialize_with_aliases.lookup "name" = some (.s it.name) ∧
      it.serialize_with_aliases.lookup "grams" = some (.n it.grams) ∧
      it.serialize_with_aliases.lookup "kcal" = some (.n it.kcal) ∧
      it.serialize_with_aliases.lookup "protein" = some (.n it.protein) ∧
      it.serialize_with_aliases.lookup "fat" = some (.n it.fat) ∧
      it.serialize_with_aliases.lookup "carbohydrates" = some (.n it.carbohydrates)) ∧
    (∀ t : TotalNutrition,
      t.serialize_with_aliases.lookup "calories" = some (.n t.kcal) ∧
      t.serialize_with_aliases.lookup "carbs" = some (.n t.carbohydrates) ∧
      t.serialize_with_aliases.lookup "kcal" = some (.n t.kcal) ∧
      t.serialize_with_aliases.lookup "protein" = some (.n t.protein) ∧
      t.serialize_with_aliases.lookup "fat" = some (.n t.fat) ∧
      t.serialize_with_aliases.lookup "carbohydrates" = some (.n t.carbohydrates)) := by
  refine ⟨fun it => ?_, fun t => ?_⟩ <;>
    simp [FoodItem.serialize_with_aliases, TotalNutrition.serialize_with_aliases,
      List.lookup]

end EatFit
